import Mathlib

/-!
Verification development for the image-filter review app (`app.py`).

The file shallowly embeds the log-reconciled decision engine of the app:
the log reconciler (`load_latest_map_for_annotator`), the per-annotator
record counter and resume locator (`count_records_for_annotator`,
`first_undecided_index_from_counts`), index clamping (`clamp_idx`,
`prompt_to_first_row_idx`), the append/read/write drive layer
(`append_lines_to_drive_text`, `_download_bytes_with_retry`) and the
save transaction (`save_now` together with the page render that feeds it).

External library calls (Google Drive, `json.loads`, Streamlit session
state) are modelled as explicit state plus an environment (oracle) that
decides the outcome of each remote call; everything the repository's own
code does is transcribed directly.
-/

namespace App

/-- Python truthiness of an optional string: `None` and `""` are falsy. -/
def pyTruthy : Option String → Bool
  | none => false
  | some s => if s = "" then false else true

/-- Python `a or b` for an optional string `a` and a string default `b`. -/
def strOr (a : Option String) (b : String) : String :=
  match a with
  | none => b
  | some s => if s = "" then b else s

/-- Strip leading and trailing whitespace from a character list
(Python `str.strip()`), implemented structurally so it evaluates in the
kernel. -/
def stripChars (l : List Char) : List Char :=
  ((l.dropWhile Char.isWhitespace).reverse.dropWhile Char.isWhitespace).reverse

/-- Python `str.strip()` on a string. -/
def pyStrip (s : String) : String :=
  String.mk (stripChars s.data)

/-- Python `str.lower()` (ASCII case folding, which covers the
reviewer names the app uses). -/
def pyLower (s : String) : String :=
  String.mk (s.data.map Char.toLower)

/-- `canonical_user` (app.py line 324): `(name or "").strip().lower()`. -/
def canonical_user (name : String) : String :=
  pyLower (pyStrip name)

/-- One decision-log JSON row, with the fields the engine reads.
Absent JSON keys are `none` (Python `dict.get` returning `None`). -/
structure Row where
  pair_key : Option String := none
  hypo_id : Option String := none
  adversarial_id : Option String := none
  annotator : Option String := none
  annotator_canon : Option String := none
  side : Option String := none
  status : Option String := none
  decided_at : Int := 0
  copied_id : Option String := none
  deriving Repr, DecidableEq, Inhabited

/-- One physical line of a log blob after `strip()`/`json.loads`:
`bad` covers blank lines and lines whose JSON parse raised (both are
skipped identically by the source). -/
inductive LogLine where
  | bad
  | ok (r : Row)
  deriving Repr, DecidableEq, Inhabited

/-- `latest_rows` (app.py lines 345-352): parse each line, skipping
blank/malformed ones. -/
def latest_rows (lines : List LogLine) : List Row :=
  lines.filterMap fun ln =>
    match ln with
    | .bad => none
    | .ok r => some r

/-- Pair key used for a row (app.py line 363):
`r.get("pair_key") or f"{r.get('hypo_id','')}|{r.get('adversarial_id','')}"`. -/
def rowPk (r : Row) : String :=
  strOr r.pair_key ((r.hypo_id.getD "") ++ "|" ++ (r.adversarial_id.getD ""))

/-- Raw canonical annotator of a row (app.py line 365):
`canonical_user(r.get("annotator") or r.get("_annotator_canon") or "")`. -/
def rowAnnRaw (r : Row) : String :=
  canonical_user (strOr r.annotator (strOr r.annotator_canon ""))

/-- One fold step of `load_latest_map_for_annotator`
(app.py lines 362-369), updating the dict `m` with row `r`. -/
def reconcile_step (target who : String) (m : List (String × Row)) (r : Row) :
    List (String × Row) :=
  let pk := rowPk r
  let r1 : Row := { r with pair_key := some pk }
  let annRaw := rowAnnRaw r1
  let r2 : Row := if annRaw = "" then { r1 with annotator := some who } else r1
  let ann := if annRaw = "" then target else annRaw
  if ann = target then updateAssoc m pk r2 else m
where
  /-- Python dict assignment `m[pk] = r`: replace in place or append. -/
  updateAssoc : List (String × Row) → String → Row → List (String × Row)
    | [], k, v => [(k, v)]
    | p :: rest, k, v =>
      if p.1 = k then (k, v) :: rest else p :: updateAssoc rest k v

/-- Python dict lookup `m.get(pk)`. -/
def lookupAssoc : List (String × Row) → String → Option Row
  | [], _ => none
  | p :: rest, k => if p.1 = k then some p.2 else lookupAssoc rest k

/-- `load_latest_map_for_annotator` (app.py lines 354-370): fold the parsed
log rows left-to-right, keeping for each pair key the last row whose
annotator resolves to the target reviewer. -/
def load_latest_map_for_annotator (lines : List LogLine) (who : String) :
    List (String × Row) :=
  (latest_rows lines).foldl (reconcile_step (canonical_user who) who) []

/-- `(x.get("status") or "").strip() or None` (app.py lines 378, 530-531). -/
def strip_or_none (o : Option String) : Option String :=
  let s := pyStrip (o.getD "")
  if s = "" then none else some s

/-- Status string of a pair in a reconciled map, as read by
`build_completion_sets` (app.py lines 378-379). -/
def status_of (m : List (String × Row)) (pk : String) : String :=
  pyStrip (((lookupAssoc m pk).bind Row.status).getD "")

/-- A pair counts as completed for the reviewer iff both sides carry a
non-empty status in the reconciled maps (app.py lines 375-381). -/
def pair_completed (log_h log_a : List LogLine) (who pk : String) : Bool :=
  status_of (load_latest_map_for_annotator log_h who) pk ≠ "" &&
  status_of (load_latest_map_for_annotator log_a who) pk ≠ ""

/-- `count_records_for_annotator` (app.py lines 387-408). The blob is
`none` when the drive read raised (the source then returns 0); otherwise
it is the parsed line list. -/
def count_records_for_annotator (blob : Option (List LogLine)) (who : String) :
    Nat :=
  match blob with
  | none => 0
  | some lines =>
    let who_c := canonical_user who
    lines.foldl
      (fun cnt ln =>
        match ln with
        | .bad => cnt
        | .ok r =>
          let ann0 := rowAnnRaw r
          let ann := if ann0 = "" then who_c else ann0
          if ann = who_c then cnt + 1 else cnt)
      0

/-- `first_undecided_index_from_counts` (app.py lines 410-416). -/
def first_undecided_index_from_counts (meta_len : Nat)
    (hypo_blob adv_blob : Option (List LogLine)) (who : String) : Nat :=
  if meta_len ≤ 0 then 0
  else
    min
      (max
        (min (count_records_for_annotator hypo_blob who)
          (count_records_for_annotator adv_blob who))
        0)
      (meta_len - 1)

/-- `clamp_idx` (app.py lines 442-444), on Python integers. -/
def clamp_idx (idx total_len : Int) : Int :=
  if total_len ≤ 0 then 0 else min (max idx 0) (total_len - 1)

/-- `rows_per_prompt` (app.py lines 419-422): the configured value, or 5
when the secret is absent or unreadable. -/
def rows_per_prompt (cfg : Option Int) : Int :=
  cfg.getD 5

/-- `prompt_to_first_row_idx` (app.py lines 435-440). -/
def prompt_to_first_row_idx (cfg : Option Int) (n total_len : Int) : Int :=
  let R := rows_per_prompt cfg
  let idx0 := (n - 1) * R
  if total_len ≤ 0 then 0 else min (max idx0 0) (total_len - 1)

/-! ### Drive layer: read / write / append with retries

The remote store and the network are modelled by an environment: each
remote call's outcome (success, or the class of exception it raised) is
supplied by an oracle, and the in-process fallback text cache
`_inproc_text_cache` plus the remote blob are explicit state. -/

/-- Remote blob plus the in-process fallback cache entry for one file id. -/
structure DriveSt where
  blob : String
  cache : Option String
  deriving Repr, DecidableEq

/-- `read_text_from_drive` (app.py lines 138-149): on download success
return the blob text and cache it; on download failure serve the cached
text when present, else re-raise. `ok` is the aggregated outcome of the
inner `_download_bytes_with_retry` budget. -/
def read_text_from_drive (ok : Bool) (s : DriveSt) :
    Except Unit (String × DriveSt) :=
  if ok then .ok (s.blob, { s with cache := some s.blob })
  else
    match s.cache with
    | some c => .ok (c, s)
    | none => .error ()

/-- `write_text_to_drive` (app.py lines 151-172): on success the remote
blob is overwritten (full-object write) and the cache updated; when the
internal retry budget is exhausted the last error is re-raised with the
state unchanged. `ok` aggregates the internal attempts. -/
def write_text_to_drive (ok : Bool) (s : DriveSt) (text : String) :
    Except Unit DriveSt :=
  if ok then .ok { blob := text, cache := some text } else .error ()

/-- The retry loop of `append_lines_to_drive_text` (app.py lines
175-182): per attempt, read (itself falling back to the cache),
concatenate the new lines, write back; an exception from either step is
swallowed and the next attempt runs. Each list entry gives the
(read, write) outcomes of one attempt. Returns the success flag and the
threaded state. -/
def append_attempts : List (Bool × Bool) → DriveSt → String → Bool × DriveSt
  | [], s, _ => (false, s)
  | (rok, wok) :: rest, s, delta =>
    match read_text_from_drive rok s with
    | .error _ => append_attempts rest s delta
    | .ok (prev, s1) =>
      match write_text_to_drive wok s1 (prev ++ delta) with
      | .ok s2 => (true, s2)
      | .error _ => append_attempts rest s1 delta

/-- `append_lines_to_drive_text` (app.py lines 174-185): run the retry
budget; if it never succeeded, write the cached text plus the delta from
the local fallback cache. That final write is not wrapped in a
try/except, so its failure propagates to the caller. -/
def append_lines_to_drive_text (atts : List (Bool × Bool)) (finalOk : Bool)
    (s : DriveSt) (new_lines : List String) : Except Unit DriveSt :=
  let delta := String.join new_lines
  match append_attempts atts s delta with
  | (true, s1) => .ok s1
  | (false, s1) => write_text_to_drive finalOk s1 (s1.cache.getD "" ++ delta)

/-- Failure classes a remote call can raise. -/
inductive DriveErr where
  | notFound
  | authz
  | transient
  deriving Repr, DecidableEq

/-- The loop of `_download_bytes_with_retry` (app.py lines 120-136),
instrumented with the number of calls issued. Every exception class is
caught (`except (HttpError, ...)` at line 132 and the catch-all `except
Exception` at line 134), the loop sleeps and retries; after the budget
the last error is re-raised. `results i` is the outcome of the i-th
remote call. -/
def download_go (results : Nat → Except DriveErr String) :
    Nat → Nat → Option DriveErr → (Except DriveErr String) × Nat
  | _, 0, last => (.error (last.getD .transient), 0)
  | i, n + 1, _ =>
    match results i with
    | .ok b => (.ok b, 1)
    | .error e =>
      let r := download_go results (i + 1) n (some e)
      (r.1, r.2 + 1)

/-- `_download_bytes_with_retry` (app.py lines 120-136) with its call
count; the default attempt budget is 6. -/
def download_bytes_with_retry (results : Nat → Except DriveErr String)
    (attempts : Nat := 6) : (Except DriveErr String) × Nat :=
  download_go results 0 attempts none

/-! ### Save transaction

`save_now` (app.py lines 589-679) is a closure over the page's
render-derived values (current entry, pair key, reconciled saved
statuses and artifact ids, source-image ids); it mutates the session,
the two destination folders and the two log blobs. The remote store is
modelled by the `Env` oracle deciding every remote call's outcome, and
each remote operation performed is recorded as an event. -/

/-- The two near-duplicate per-side code paths (hypothesis vs
adversarial). -/
inductive Side where
  | hypo
  | adv
  deriving Repr, DecidableEq

/-- Observable operations a save performs. -/
inductive Ev where
  | findDst (sd : Side)
  | del (sd : Side) (fid : String)
  | create (sd : Side) (name : String)
  | appendLog (sd : Side)
  | clearCaches
  | persistPtr (i : Int)
  deriving Repr, DecidableEq

/-- Is the event a log append? -/
def Ev.isAppend : Ev → Bool
  | .appendLog _ => true
  | _ => false

/-- Is the event an artifact mutation (delete or create)? -/
def Ev.isArtifactOp : Ev → Bool
  | .del _ _ => true
  | .create _ _ => true
  | _ => false

/-- Is the event a step-2 artifact-maintenance remote call (folder
lookup, delete or create)? -/
def Ev.isStep2 : Ev → Bool
  | .findDst _ => true
  | .del _ _ => true
  | .create _ _ => true
  | _ => false

/-- A destination folder's contents as (name, file id) pairs. -/
abbrev Folder := List (String × String)

/-- `find_file_id_in_folder` (app.py lines 187-199) on a configured
destination folder: no call for a falsy filename; otherwise the first
entry with that name, with a raising call (`ok = false`) swallowed into
`None`. -/
def find_file_id_in_folder (sd : Side) (ok : Bool) (folder : Folder)
    (filename : String) : Option String × List Ev :=
  if filename = "" then (none, [])
  else if ok then ((folder.find? (fun p => p.1 == filename)).map Prod.snd, [.findDst sd])
  else (none, [.findDst sd])

/-- `delete_file_by_id` (app.py lines 201-206): no-op for a falsy id;
otherwise issue the delete, swallowing any exception (`ok = false`
leaves the folder unchanged). -/
def delete_file_by_id (sd : Side) (ok : Bool) (folder : Folder)
    (fid : Option String) : Folder × List Ev :=
  if pyTruthy fid = false then (folder, [])
  else
    ((if ok then folder.filter (fun p => p.2 != fid.getD "") else folder),
     [.del sd (fid.getD "")])

/-- `create_shortcut_to_file` (app.py lines 208-222): returns `None`
without a call when source or destination is falsy; otherwise creates
the shortcut under a fresh id from the environment, or swallows the
exception and returns `None` when the call fails. -/
def create_shortcut_to_file (sd : Side) (ok : Bool) (fresh : String)
    (folder : Folder) (src_id : Option String) (new_name : String) :
    Option String × Folder × List Ev :=
  if pyTruthy src_id then
    if ok then (some fresh, folder ++ [(new_name, fresh)], [.create sd new_name])
    else (none, folder, [.create sd new_name])
  else (none, folder, [])

/-- Environment for one side of a save: outcomes of the remote calls
and the id a successful shortcut creation would return; `src_id` is the
source-image lookup result from the page render (app.py lines 549-550). -/
structure SideEnv where
  find_ok : Bool
  delete_ok : Bool
  create_ok : Bool
  fresh : String
  src_id : Option String
  deriving Repr, DecidableEq

/-- Environment for one save: per-side call outcomes, the aggregated
outcomes of the two log appends, and the wall-clock timestamp. -/
structure Env where
  henv : SideEnv
  aenv : SideEnv
  append_h_ok : Bool
  append_a_ok : Bool
  ts : Int
  deriving Repr, DecidableEq

/-- The flip-safe shortcut maintenance for one side (app.py lines
614-621 for hypothesis, 623-630 for adversarial): if the persisted
status was accepted and the new one is not, delete the artifact (by the
stored id, else by destination-name lookup); if the new status is
accepted, delete any stale artifact first and then create a fresh one.
Returns the folder, the new copied id and the operations performed. -/
def side_maintenance (sd : Side) (se : SideEnv) (saved : Option String)
    (new_status : String) (prev_copied : Option String) (name : String)
    (folder : Folder) : Folder × Option String × List Ev :=
  let step1 :=
    if saved = some "accepted" ∧ new_status ≠ "accepted" then
      let fr := if pyTruthy prev_copied then (prev_copied, ([] : List Ev))
                else find_file_id_in_folder sd se.find_ok folder name
      let dr := delete_file_by_id sd se.delete_ok folder fr.1
      (dr.1, (none : Option String), fr.2 ++ dr.2)
    else (folder, prev_copied, [])
  if new_status = "accepted" then
    let fr := if pyTruthy prev_copied then (prev_copied, ([] : List Ev))
              else find_file_id_in_folder sd se.find_ok step1.1 name
    let dr := delete_file_by_id sd se.delete_ok step1.1 fr.1
    let cr := create_shortcut_to_file sd se.create_ok se.fresh dr.1 se.src_id name
    let copied := if pyTruthy se.src_id then cr.1 else step1.2.1
    (cr.2.1, copied, step1.2.2 ++ fr.2 ++ dr.2 ++ cr.2.2)
  else step1

/-- The structured flash result `{msg, ok}` the save leaves for the UI
(app.py `st.session_state.last_save_flash`; timestamp omitted). -/
structure Flash where
  msg : String
  ok : Bool
  deriving Repr, DecidableEq

/-- The content-derived idempotency token (app.py lines 643-645): a
SHA-1 over the JSON of (pairKey, new statuses, reviewer), modelled as
the content tuple itself — token equality is content equality. -/
structure Token where
  pk : String
  h : String
  a : String
  who : String
  deriving Repr, DecidableEq

/-- The per-session Streamlit state the save transaction touches. -/
structure Session where
  user : String
  idx : Int
  dec : List (String × (Option String × Option String))
  last_save_token : Option Token
  save_lock : Bool
  saving : Bool
  flash : Option Flash
  deriving Repr, DecidableEq

/-- Python dict lookup on the in-memory decision dict `st.session_state.dec`. -/
def lookupDec : List (String × (Option String × Option String)) → String →
    Option (Option String × Option String)
  | [], _ => none
  | p :: rest, k => if p.1 = k then some p.2 else lookupDec rest k

/-- One metadata record (only the fields the decision engine reads,
already defaulted to `""` as by `entry.get(..., "")`). -/
structure Entry where
  hypo_id : String
  adversarial_id : String
  deriving Repr, DecidableEq, Inhabited

/-- The durable and session state a save can observe or mutate. -/
structure World where
  meta : List Entry
  log_hypo : List LogLine
  log_adv : List LogLine
  dst_hypo : Folder
  dst_adv : Folder
  session : Session
  deriving Repr, DecidableEq

/-- The render-derived values `save_now` closes over (app.py lines
517-550): current index and entry, pair key, reconciled saved statuses
and artifact ids, and the source-image ids. -/
structure RenderCtx where
  i : Int
  hypo_name : String
  adv_name : String
  pk : String
  saved_h : Option String
  saved_a : Option String
  saved_h_copied : Option String
  saved_a_copied : Option String
  src_h_id : Option String
  src_a_id : Option String
  deriving Repr, DecidableEq

/-- The page derivation feeding `save_now` (app.py lines 517-550):
clamp-guarded entry access, pair-key synthesis, reconciled per-side
status/copied-id, and source-image lookups (the latter supplied by the
environment). -/
def render (env : Env) (w : World) : RenderCtx :=
  let i := w.session.idx
  let entry := if 0 ≤ i ∧ i < (w.meta.length : Int)
               then w.meta.getD i.toNat ⟨"", ""⟩ else ⟨"", ""⟩
  let hypo_name := entry.hypo_id
  let adv_name := entry.adversarial_id
  let pk := if hypo_name ≠ "" ∨ adv_name ≠ ""
            then hypo_name ++ "|" ++ adv_name
            else "row_" ++ toString i
  let shr := lookupAssoc (load_latest_map_for_annotator w.log_hypo w.session.user) pk
  let sar := lookupAssoc (load_latest_map_for_annotator w.log_adv w.session.user) pk
  { i := i, hypo_name := hypo_name, adv_name := adv_name, pk := pk,
    saved_h := strip_or_none (shr.bind Row.status),
    saved_a := strip_or_none (sar.bind Row.status),
    saved_h_copied := shr.bind Row.copied_id,
    saved_a_copied := sar.bind Row.copied_id,
    src_h_id := env.henv.src_id, src_a_id := env.aenv.src_id }

/-- Is a working decision a concrete status
(`in {"accepted", "rejected"}`)? -/
def is_concrete (o : Option String) : Bool :=
  o == some "accepted" || o == some "rejected"

/-- `save_now` (app.py lines 589-679). Mirrors the source's control
flow: single-flight lock check; precondition guard; flip-safe shortcut
maintenance for both sides; record building; idempotency-token
short-circuit; the two log appends (each may raise); cache
invalidation; advance-and-clamp of the index; pointer persistence. The
`_save_lock`/`saving` flags are set on entry and restored by the
`finally`, so on every completed path they end as they started. -/
def save_now (env : Env) (ctx : RenderCtx) (w : World) : World × List Ev :=
  let ss := w.session
  if ss.save_lock || ss.saving then (w, [])
  else
    let dec := (lookupDec ss.dec ctx.pk).getD (none, none)
    let cur_h := dec.1
    let cur_a := dec.2
    if is_concrete cur_h && is_concrete cur_a then
      let ts := env.ts
      let new_h_status := cur_h.getD ""
      let new_a_status := cur_a.getD ""
      let mh := side_maintenance .hypo env.henv ctx.saved_h new_h_status
        ctx.saved_h_copied ctx.hypo_name w.dst_hypo
      let ma := side_maintenance .adv env.aenv ctx.saved_a new_a_status
        ctx.saved_a_copied ctx.adv_name w.dst_adv
      let evArt := mh.2.2 ++ ma.2.2
      let w1 := { w with dst_hypo := mh.1, dst_adv := ma.1 }
      let rec_h : Row :=
        { pair_key := some ctx.pk, hypo_id := some ctx.hypo_name,
          adversarial_id := some ctx.adv_name, annotator := some ss.user,
          annotator_canon := some (canonical_user ss.user),
          side := some "hypothesis", status := some new_h_status,
          decided_at := ts,
          copied_id := if pyTruthy mh.2.1 then mh.2.1 else none }
      let rec_a : Row :=
        { pair_key := some ctx.pk, hypo_id := some ctx.hypo_name,
          adversarial_id := some ctx.adv_name, annotator := some ss.user,
          annotator_canon := some (canonical_user ss.user),
          side := some "adversarial", status := some new_a_status,
          decided_at := ts,
          copied_id := if pyTruthy ma.2.1 then ma.2.1 else none }
      let token : Token := ⟨ctx.pk, new_h_status, new_a_status, canonical_user ss.user⟩
      if ss.last_save_token = some token then
        ({ w1 with session :=
            { ss with flash := some ⟨"Already saved this exact decision.", true⟩ } },
         evArt)
      else if env.append_h_ok = false then
        ({ w1 with session :=
            { ss with flash := some ⟨"Failed to append logs.", false⟩ } },
         evArt)
      else
        let w2 := { w1 with log_hypo := w1.log_hypo ++ [LogLine.ok rec_h] }
        if env.append_a_ok = false then
          ({ w2 with session :=
              { ss with flash := some ⟨"Failed to append logs.", false⟩ } },
           evArt ++ [.appendLog .hypo])
        else
          let w3 := { w2 with log_adv := w2.log_adv ++ [LogLine.ok rec_a] }
          let idx2 := clamp_idx (ctx.i + 1) (w3.meta.length : Int)
          ({ w3 with session :=
              { ss with last_save_token := some token, idx := idx2,
                        flash := some ⟨"Saved.", true⟩ } },
           evArt ++ [.appendLog .hypo, .appendLog .adv, .clearCaches, .persistPtr idx2])
    else
      ({ w with session :=
          { ss with flash := some ⟨"Decide both sides before saving.", false⟩ } },
       [])

/-- One page pass followed by a save click: compute the render-derived
closure values and run `save_now`. -/
def pageSave (env : Env) (w : World) : World × List Ev :=
  save_now env (render env w) w

/-- Python dict assignment on the decision dict. -/
def setDecAssoc : List (String × (Option String × Option String)) → String →
    (Option String × Option String) →
    List (String × (Option String × Option String))
  | [], k, v => [(k, v)]
  | p :: rest, k, v => if p.1 = k then (k, v) :: rest else p :: setDecAssoc rest k v

/-- The reviewer picking a working decision for `pk` through the
accept/reject buttons (app.py lines 560-581). -/
def setDec (w : World) (pk : String) (dh da : Option String) : World :=
  { w with session :=
      { w.session with dec := setDecAssoc w.session.dec pk (dh, da) } }

/-- Earlier record of the C1 scenario (timestamp 1). -/
def c1_rowEarly : Row :=
  { pair_key := some "h1|a1", annotator := some "rev", side := some "hypothesis",
    status := some "accepted", decided_at := 1 }

/-- Later record of the C1 scenario (timestamp 2). -/
def c1_rowLate : Row :=
  { pair_key := some "h1|a1", annotator := some "rev", side := some "hypothesis",
    status := some "rejected", decided_at := 2 }

/-- A fully-decided log record for pair `pk` by reviewer "rev". -/
def c2_row (pk : String) : Row :=
  { pair_key := some pk, annotator := some "rev", status := some "accepted",
    decided_at := 5 }

/-- Hypothesis-side log of the C2 scenario: pairs 0, 1 and 3 decided. -/
def c2_hlog : List LogLine :=
  [.ok (c2_row "h0|a0"), .ok (c2_row "h1|a1"), .ok (c2_row "h3|a3")]

/-- Adversarial-side log of the C2 scenario: pairs 0, 1 and 3 decided. -/
def c2_alog : List LogLine :=
  [.ok (c2_row "h0|a0"), .ok (c2_row "h1|a1"), .ok (c2_row "h3|a3")]

/-- A side environment in which every remote call succeeds. -/
def okSide (fresh : String) (src : Option String) : SideEnv :=
  ⟨true, true, true, fresh, src⟩

/-- An all-success environment for a save. -/
def demoEnv : Env :=
  { henv := okSide "F" (some "S"), aenv := okSide "G" (some "T"),
    append_h_ok := true, append_a_ok := true, ts := 100 }

/-- A one-record world with a working decision (accepted, rejected) and
nothing persisted yet. -/
def demoWorld : World :=
  { meta := [⟨"h1", "a1"⟩], log_hypo := [], log_adv := [],
    dst_hypo := [], dst_adv := [],
    session := { user := "Rev", idx := 0,
                 dec := [("h1|a1", (some "accepted", some "rejected"))],
                 last_save_token := none, save_lock := false, saving := false,
                 flash := none } }

/-- C4 scenario: the hypothesis side is already persisted as accepted
with artifact id "X". -/
def c4_priorH : Row :=
  { pair_key := some "h1|a1", annotator := some "rev", side := some "hypothesis",
    status := some "accepted", decided_at := 50, copied_id := some "X" }

/-- C4 scenario: the adversarial side is already persisted as rejected. -/
def c4_priorA : Row :=
  { pair_key := some "h1|a1", annotator := some "rev", side := some "adversarial",
    status := some "rejected", decided_at := 50 }

/-- C4 scenario: the decision (accepted, rejected) was already saved and
its idempotency token retained, so a second save is a duplicate. -/
def c4_world : World :=
  { meta := [⟨"h1", "a1"⟩], log_hypo := [.ok c4_priorH], log_adv := [.ok c4_priorA],
    dst_hypo := [("h1", "X")], dst_adv := [],
    session := { user := "Rev", idx := 0,
                 dec := [("h1|a1", (some "accepted", some "rejected"))],
                 last_save_token := some ⟨"h1|a1", "accepted", "rejected", "rev"⟩,
                 save_lock := false, saving := false, flash := none } }

/-- C6 scenario: the environment in which the hypothesis-side shortcut
creation raises (the helper swallows the exception and returns `None`). -/
def c6_env : Env :=
  { henv := ⟨true, true, false, "F", some "S"⟩, aenv := okSide "G" (some "T"),
    append_h_ok := true, append_a_ok := true, ts := 100 }

/-- C9 scenario: the hypothesis side of the working decision is unset. -/
def c9_world : World :=
  { demoWorld with session :=
      { demoWorld.session with dec := [("h1|a1", (none, some "rejected"))] } }

/-! #### C5 scenario: an accepted→rejected→accepted flip sequence

`c5_world` is the starting state: the pair is persisted as
(accepted, rejected) with one export artifact `(hn, X)` in the
destination folder; the working decision flips the hypothesis side to
rejected, is saved, is flipped back to accepted, and is saved again.
`c5_world1/2/3` are the states the two saves and the intervening button
click produce, with `c5_rec*` the records the saves append. -/

/-- An all-success environment whose hypothesis-side shortcut creation
returns the fresh id `F`; the source-image lookups resolved to `S` for
the hypothesis side and nothing for the adversarial side. -/
def c5_env (F S : String) (ts : Int) : Env :=
  { henv := ⟨true, true, true, F, some S⟩, aenv := ⟨true, true, true, F, none⟩,
    append_h_ok := true, append_a_ok := true, ts := ts }

/-- Start of the C5 flip sequence (see section comment). -/
def c5_world (u hn an X : String) (lh0 la0 : List LogLine) (da0 : Folder)
    (tok0 : Option Token) : World :=
  { meta := [⟨hn, an⟩], log_hypo := lh0, log_adv := la0,
    dst_hypo := [(hn, X)], dst_adv := da0,
    session := { user := u, idx := 0,
                 dec := [(hn ++ "|" ++ an, (some "rejected", some "rejected"))],
                 last_save_token := tok0, save_lock := false, saving := false,
                 flash := none } }

/-- Hypothesis-side record the first (flip-out) save appends: status
rejected, no artifact id. -/
def c5_rec1h (u hn an : String) (ts : Int) : Row :=
  { pair_key := some (hn ++ "|" ++ an), hypo_id := some hn, adversarial_id := some an,
    annotator := some u, annotator_canon := some (canonical_user u),
    side := some "hypothesis", status := some "rejected", decided_at := ts,
    copied_id := none }

/-- Adversarial-side record the first save appends (status rejected as
before; `ca1` is the carried-over copied id, if any was truthy). -/
def c5_rec1a (u hn an : String) (ts : Int) (ca1 : Option String) : Row :=
  { pair_key := some (hn ++ "|" ++ an), hypo_id := some hn, adversarial_id := some an,
    annotator := some u, annotator_canon := some (canonical_user u),
    side := some "adversarial", status := some "rejected", decided_at := ts,
    copied_id := ca1 }

/-- Hypothesis-side record the second (flip-back) save appends: status
accepted with the fresh artifact id `F`. -/
def c5_rec2h (u hn an F : String) (ts : Int) : Row :=
  { pair_key := some (hn ++ "|" ++ an), hypo_id := some hn, adversarial_id := some an,
    annotator := some u, annotator_canon := some (canonical_user u),
    side := some "hypothesis", status := some "accepted", decided_at := ts,
    copied_id := some F }

/-- Adversarial-side record the second save appends. -/
def c5_rec2a (u hn an : String) (ts : Int) (ca1 : Option String) : Row :=
  { pair_key := some (hn ++ "|" ++ an), hypo_id := some hn, adversarial_id := some an,
    annotator := some u, annotator_canon := some (canonical_user u),
    side := some "adversarial", status := some "rejected", decided_at := ts,
    copied_id := if pyTruthy ca1 then ca1 else none }

/-- State after the first save: artifact deleted, rejected records
appended, token retained, index re-clamped to 0. -/
def c5_world1 (u hn an : String) (lh0 la0 : List LogLine) (da0 : Folder)
    (ca1 : Option String) (ts1 : Int) : World :=
  { meta := [⟨hn, an⟩],
    log_hypo := lh0 ++ [LogLine.ok (c5_rec1h u hn an ts1)],
    log_adv := la0 ++ [LogLine.ok (c5_rec1a u hn an ts1 ca1)],
    dst_hypo := [], dst_adv := da0,
    session := { user := u, idx := 0,
                 dec := [(hn ++ "|" ++ an, (some "rejected", some "rejected"))],
                 last_save_token :=
                   some ⟨hn ++ "|" ++ an, "rejected", "rejected", canonical_user u⟩,
                 save_lock := false, saving := false,
                 flash := some ⟨"Saved.", true⟩ } }

/-- State after the reviewer flips the hypothesis side back to accepted. -/
def c5_world2 (u hn an : String) (lh0 la0 : List LogLine) (da0 : Folder)
    (ca1 : Option String) (ts1 : Int) : World :=
  { meta := [⟨hn, an⟩],
    log_hypo := lh0 ++ [LogLine.ok (c5_rec1h u hn an ts1)],
    log_adv := la0 ++ [LogLine.ok (c5_rec1a u hn an ts1 ca1)],
    dst_hypo := [], dst_adv := da0,
    session := { user := u, idx := 0,
                 dec := [(hn ++ "|" ++ an, (some "accepted", some "rejected"))],
                 last_save_token :=
                   some ⟨hn ++ "|" ++ an, "rejected", "rejected", canonical_user u⟩,
                 save_lock := false, saving := false,
                 flash := some ⟨"Saved.", true⟩ } }

/-- State after the second save: exactly one fresh artifact `(hn, F)`,
accepted record appended carrying `F`. -/
def c5_world3 (u hn an F : String) (lh0 la0 : List LogLine) (da0 : Folder)
    (ca1 : Option String) (ts1 ts2 : Int) : World :=
  { meta := [⟨hn, an⟩],
    log_hypo := (lh0 ++ [LogLine.ok (c5_rec1h u hn an ts1)])
      ++ [LogLine.ok (c5_rec2h u hn an F ts2)],
    log_adv := (la0 ++ [LogLine.ok (c5_rec1a u hn an ts1 ca1)])
      ++ [LogLine.ok (c5_rec2a u hn an ts2 ca1)],
    dst_hypo := [(hn, F)], dst_adv := da0,
    session := { user := u, idx := 0,
                 dec := [(hn ++ "|" ++ an, (some "accepted", some "rejected"))],
                 last_save_token :=
                   some ⟨hn ++ "|" ++ an, "accepted", "rejected", canonical_user u⟩,
                 save_lock := false, saving := false,
                 flash := some ⟨"Saved.", true⟩ } }

/-! ### Supporting lemmas about the reconciler -/

lemma latest_rows_append (l1 l2 : List LogLine) :
    latest_rows (l1 ++ l2) = latest_rows l1 ++ latest_rows l2 := by
  simp [latest_rows]

lemma latest_rows_map_ok (rows : List Row) :
    latest_rows (rows.map LogLine.ok) = rows := by
  induction rows with
  | nil => rfl
  | cons r t ih => simp [latest_rows] at ih ⊢; exact ih

lemma lookup_updateAssoc_self (m : List (String × Row)) (k : String) (v : Row) :
    lookupAssoc (reconcile_step.updateAssoc m k v) k = some v := by
  induction m with
  | nil => simp [reconcile_step.updateAssoc, lookupAssoc]
  | cons p rest ih =>
    by_cases h : p.1 = k
    · simp [reconcile_step.updateAssoc, h, lookupAssoc]
    · simp [reconcile_step.updateAssoc, h, lookupAssoc, ih]

lemma rowAnnRaw_set_pk (r : Row) (pk : String) :
    rowAnnRaw { r with pair_key := some pk } = rowAnnRaw r := rfl

/-- A row whose annotator canonicalizes (non-emptily) to the target is
written into the dict at its pair key by one reconciliation step. -/
lemma reconcile_step_match (target who : String) (m : List (String × Row))
    (r : Row) (hann : rowAnnRaw r = target) (hne : target ≠ "") :
    reconcile_step target who m r =
      reconcile_step.updateAssoc m (rowPk r) { r with pair_key := some (rowPk r) } := by
  simp only [reconcile_step, rowAnnRaw_set_pk, hann]
  simp [hne]

/-- Appending a row for the target reviewer to a log makes it the
reconciled record for its pair key: the fold is last-wins in log order. -/
lemma load_latest_map_append_last (lines : List LogLine) (last : Row) (who : String)
    (hann : rowAnnRaw last = canonical_user who) (hne : canonical_user who ≠ "") :
    lookupAssoc (load_latest_map_for_annotator (lines ++ [LogLine.ok last]) who) (rowPk last)
      = some { last with pair_key := some (rowPk last) } := by
  unfold load_latest_map_for_annotator
  rw [latest_rows_append, List.foldl_append]
  have h1 : latest_rows [LogLine.ok last] = [last] := rfl
  rw [h1]
  simp only [List.foldl_cons, List.foldl_nil]
  rw [reconcile_step_match (canonical_user who) who _ last hann hne]
  exact lookup_updateAssoc_self _ _ _

/-- In a strictly increasing chain the last element is the maximum. -/
lemma chain_lt_le_last (init : List Row) (last : Row)
    (hchain : (init ++ [last]).Chain' (fun x y => x.decided_at < y.decided_at)) :
    ∀ r ∈ init ++ [last], r.decided_at ≤ last.decided_at := by
  induction init with
  | nil =>
    intro r hr
    simp at hr
    simp [hr]
  | cons b t ih =>
    intro r hr
    have htail : ((t ++ [last]).Chain' (fun x y => x.decided_at < y.decided_at)) :=
      (List.chain'_cons'.mp hchain).2
    rcases List.mem_cons.mp hr with hrb | hrt
    · subst hrb
      have hhd := (List.chain'_cons'.mp hchain).1
      cases t with
      | nil =>
        have := hhd last rfl
        exact le_of_lt this
      | cons c t' =>
        have hbc := hhd c rfl
        have hc := ih htail c (by simp)
        exact le_of_lt (lt_of_lt_of_le hbc hc)
    · exact ih htail r hrt

/-! ### Supporting lemmas about the save transaction -/

lemma is_concrete_of (s : String) (h : s = "accepted" ∨ s = "rejected") :
    is_concrete (some s) = true := by
  rcases h with rfl | rfl <;> rfl

/-- `save_now` on the success path: preconditions hold, the token does
not match, both appends succeed. -/
lemma save_now_success_eq (env : Env) (ctx : RenderCtx) (w : World) (sh sa : String)
    (hl : w.session.save_lock = false) (hs : w.session.saving = false)
    (hd : lookupDec w.session.dec ctx.pk = some (some sh, some sa))
    (hsh : sh = "accepted" ∨ sh = "rejected") (hsa : sa = "accepted" ∨ sa = "rejected")
    (ht : ¬ w.session.last_save_token =
      some ⟨ctx.pk, sh, sa, canonical_user w.session.user⟩)
    (hah : env.append_h_ok = true) (haa : env.append_a_ok = true) :
    save_now env ctx w =
      ({ w with
          dst_hypo := (side_maintenance .hypo env.henv ctx.saved_h sh
            ctx.saved_h_copied ctx.hypo_name w.dst_hypo).1,
          dst_adv := (side_maintenance .adv env.aenv ctx.saved_a sa
            ctx.saved_a_copied ctx.adv_name w.dst_adv).1,
          log_hypo := w.log_hypo ++ [LogLine.ok
            { pair_key := some ctx.pk, hypo_id := some ctx.hypo_name,
              adversarial_id := some ctx.adv_name, annotator := some w.session.user,
              annotator_canon := some (canonical_user w.session.user),
              side := some "hypothesis", status := some sh, decided_at := env.ts,
              copied_id := if pyTruthy (side_maintenance .hypo env.henv ctx.saved_h sh
                  ctx.saved_h_copied ctx.hypo_name w.dst_hypo).2.1
                then (side_maintenance .hypo env.henv ctx.saved_h sh
                  ctx.saved_h_copied ctx.hypo_name w.dst_hypo).2.1 else none }],
          log_adv := w.log_adv ++ [LogLine.ok
            { pair_key := some ctx.pk, hypo_id := some ctx.hypo_name,
              adversarial_id := some ctx.adv_name, annotator := some w.session.user,
              annotator_canon := some (canonical_user w.session.user),
              side := some "adversarial", status := some sa, decided_at := env.ts,
              copied_id := if pyTruthy (side_maintenance .adv env.aenv ctx.saved_a sa
                  ctx.saved_a_copied ctx.adv_name w.dst_adv).2.1
                then (side_maintenance .adv env.aenv ctx.saved_a sa
                  ctx.saved_a_copied ctx.adv_name w.dst_adv).2.1 else none }],
          session := { w.session with
            last_save_token := some ⟨ctx.pk, sh, sa, canonical_user w.session.user⟩,
            idx := clamp_idx (ctx.i + 1) (w.meta.length : Int),
            flash := some ⟨"Saved.", true⟩ } },
       (side_maintenance .hypo env.henv ctx.saved_h sh
          ctx.saved_h_copied ctx.hypo_name w.dst_hypo).2.2 ++
        (side_maintenance .adv env.aenv ctx.saved_a sa
          ctx.saved_a_copied ctx.adv_name w.dst_adv).2.2 ++
        [.appendLog .hypo, .appendLog .adv, .clearCaches,
         .persistPtr (clamp_idx (ctx.i + 1) (w.meta.length : Int))]) := by
  unfold save_now
  simp only [hl, hs, Bool.or_self, Bool.false_eq_true, if_false, hd,
    Option.getD_some, is_concrete_of sh hsh, is_concrete_of sa hsa,
    Bool.and_self, if_true, hah, haa]
  rw [if_neg ht]
  simp [List.append_assoc]

/-- `save_now` when the idempotency token matches the last save's:
step 2 has already run; the save then short-circuits with a no-op
result, leaving logs, token and index untouched. -/
lemma save_now_duplicate_eq (env : Env) (ctx : RenderCtx) (w : World) (sh sa : String)
    (hl : w.session.save_lock = false) (hs : w.session.saving = false)
    (hd : lookupDec w.session.dec ctx.pk = some (some sh, some sa))
    (hsh : sh = "accepted" ∨ sh = "rejected") (hsa : sa = "accepted" ∨ sa = "rejected")
    (ht : w.session.last_save_token =
      some ⟨ctx.pk, sh, sa, canonical_user w.session.user⟩) :
    save_now env ctx w =
      ({ w with
          dst_hypo := (side_maintenance .hypo env.henv ctx.saved_h sh
            ctx.saved_h_copied ctx.hypo_name w.dst_hypo).1,
          dst_adv := (side_maintenance .adv env.aenv ctx.saved_a sa
            ctx.saved_a_copied ctx.adv_name w.dst_adv).1,
          session := { w.session with
            flash := some ⟨"Already saved this exact decision.", true⟩ } },
       (side_maintenance .hypo env.henv ctx.saved_h sh
          ctx.saved_h_copied ctx.hypo_name w.dst_hypo).2.2 ++
        (side_maintenance .adv env.aenv ctx.saved_a sa
          ctx.saved_a_copied ctx.adv_name w.dst_adv).2.2) := by
  unfold save_now
  simp only [hl, hs, Bool.or_self, Bool.false_eq_true, if_false, hd,
    Option.getD_some, is_concrete_of sh hsh, is_concrete_of sa hsa,
    Bool.and_self, if_true]
  rw [if_pos ht]

/-- `save_now` when a side of the working decision is not a concrete
status: the flash failure is set and nothing else happens. -/
lemma save_now_precondition_eq (env : Env) (ctx : RenderCtx) (w : World)
    (hl : w.session.save_lock = false) (hs : w.session.saving = false)
    (hnd : (is_concrete ((lookupDec w.session.dec ctx.pk).getD (none, none)).1 &&
            is_concrete ((lookupDec w.session.dec ctx.pk).getD (none, none)).2) = false) :
    save_now env ctx w =
      ({ w with session := { w.session with
          flash := some ⟨"Decide both sides before saving.", false⟩ } }, []) := by
  unfold save_now
  simp only [hl, hs, Bool.or_self, Bool.false_eq_true, if_false, hnd]

lemma find_ev_step2 (sd : Side) (ok : Bool) (folder : Folder) (fn : String) :
    ∀ e ∈ (find_file_id_in_folder sd ok folder fn).2, e.isStep2 = true := by
  intro e he
  unfold find_file_id_in_folder at he
  split_ifs at he <;> simp_all [Ev.isStep2]

lemma delete_ev_step2 (sd : Side) (ok : Bool) (folder : Folder) (fid : Option String) :
    ∀ e ∈ (delete_file_by_id sd ok folder fid).2, e.isStep2 = true := by
  intro e he
  unfold delete_file_by_id at he
  split_ifs at he <;> simp_all [Ev.isStep2]

lemma create_ev_step2 (sd : Side) (ok : Bool) (fresh : String) (folder : Folder)
    (src : Option String) (nn : String) :
    ∀ e ∈ (create_shortcut_to_file sd ok fresh folder src nn).2.2, e.isStep2 = true := by
  intro e he
  unfold create_shortcut_to_file at he
  split_ifs at he <;> simp_all [Ev.isStep2]

/-- Every event emitted by the per-side artifact maintenance is a
folder lookup, delete or create — never a log append, cache clear or
pointer write. -/
lemma side_maintenance_step2_only (sd : Side) (se : SideEnv) (saved : Option String)
    (ns : String) (pc : Option String) (name : String) (folder : Folder) :
    ∀ e ∈ (side_maintenance sd se saved ns pc name folder).2.2, e.isStep2 = true := by
  intro e he
  unfold side_maintenance at he
  dsimp only at he
  split_ifs at he
  all_goals try simp only [List.mem_append, List.not_mem_nil, false_or, or_false] at he
  all_goals try repeat' rcases he with he | he
  all_goals
    first
      | exact find_ev_step2 _ _ _ _ e he
      | exact delete_ev_step2 _ _ _ _ e he
      | exact create_ev_step2 _ _ _ _ _ _ e he

lemma filter_isAppend_of_step2 (l : List Ev) (h : ∀ e ∈ l, e.isStep2 = true) :
    l.filter Ev.isAppend = [] := by
  rw [List.filter_eq_nil_iff]
  intro a ha
  have h2 := h a ha
  cases a <;> simp_all [Ev.isStep2, Ev.isAppend]

/-- Artifact maintenance emits no log-append events. -/
lemma side_maintenance_filter_append (sd : Side) (se : SideEnv)
    (saved : Option String) (ns : String) (pc : Option String) (name : String)
    (folder : Folder) :
    ((side_maintenance sd se saved ns pc name folder).2.2).filter Ev.isAppend = [] :=
  filter_isAppend_of_step2 _ (side_maintenance_step2_only sd se saved ns pc name folder)

/-! ### Claim C1 — latest-wins reconciliation -/

/-- Claim C1 counterexample: two records for the same
(pairKey, reviewer, side) with strictly increasing timestamps 1 and 2,
presented in the permuted order (timestamp 2 first, then timestamp 1).
`load_latest_map_for_annotator` returns the record with timestamp 1 —
not the one with the greatest timestamp — so reconciliation is not
order-independent, refuting the claim. -/
theorem C1_counterexample :
    ([c1_rowEarly, c1_rowLate].Chain' (fun x y => x.decided_at < y.decided_at)) ∧
    c1_rowLate.decided_at = 2 ∧
    (lookupAssoc
        (load_latest_map_for_annotator [LogLine.ok c1_rowLate, LogLine.ok c1_rowEarly] "rev")
        "h1|a1").map Row.decided_at = some 1 := by
  refine ⟨?_, by decide, by decide⟩
  simp [List.chain'_cons, c1_rowEarly, c1_rowLate]

/-- Claim C1 (amended): reconciliation keeps, per pair key, the LAST
record in log order among the target reviewer's records (its pair-key
field filled in); there is no timestamp comparison. Hence when the
records appear in log order with strictly increasing timestamps the
reconciled record is the one with the greatest timestamp, but this
holds for the given log order, not for every permutation. -/
theorem C1_reconcile_last_in_log_order (init : List Row) (last : Row) (who : String)
    (hann : rowAnnRaw last = canonical_user who)
    (hne : canonical_user who ≠ "")
    (hchain : (init ++ [last]).Chain' (fun x y => x.decided_at < y.decided_at)) :
    lookupAssoc
        (load_latest_map_for_annotator ((init ++ [last]).map LogLine.ok) who)
        (rowPk last)
      = some { last with pair_key := some (rowPk last) } ∧
    ∀ r ∈ init ++ [last], r.decided_at ≤ last.decided_at := by
  constructor
  · rw [List.map_append]
    exact load_latest_map_append_last (init.map LogLine.ok) last who hann hne
  · exact chain_lt_le_last init last hchain

/-- Witness for the amended C1 theorem at a concrete log. -/
theorem C1_witness :
    lookupAssoc
        (load_latest_map_for_annotator (([c1_rowEarly] ++ [c1_rowLate]).map LogLine.ok) "rev")
        (rowPk c1_rowLate)
      = some { c1_rowLate with pair_key := some (rowPk c1_rowLate) } ∧
    ∀ r ∈ [c1_rowEarly] ++ [c1_rowLate], r.decided_at ≤ c1_rowLate.decided_at :=
  C1_reconcile_last_in_log_order [c1_rowEarly] c1_rowLate "rev"
    (by decide) (by decide)
    (by simp [List.chain'_cons, c1_rowEarly, c1_rowLate])

/-! ### Claim C2 — resume locator -/

/-- Claim C2 counterexample: with 5 records whose pairs at indices
0, 1, 3 are fully decided for the reviewer and 2, 4 are not, the resume
locator `first_undecided_index_from_counts` returns 3 (the clamped
record count), not 2 (the first pair missing from the completed set). -/
theorem C2_counterexample :
    (pair_completed c2_hlog c2_alog "rev" "h0|a0" = true ∧
     pair_completed c2_hlog c2_alog "rev" "h1|a1" = true ∧
     pair_completed c2_hlog c2_alog "rev" "h3|a3" = true ∧
     pair_completed c2_hlog c2_alog "rev" "h2|a2" = false ∧
     pair_completed c2_hlog c2_alog "rev" "h4|a4" = false) ∧
    first_undecided_index_from_counts 5 (some c2_hlog) (some c2_alog) "rev" = 3 ∧
    first_undecided_index_from_counts 5 (some c2_hlog) (some c2_alog) "rev" ≠ 2 := by
  decide

/-- Claim C2 (amended): the resume locator does not scan for the first
pair missing from `completedPairs`; it returns the reviewer's
per-annotator record count (the minimum over the two side logs),
clamped into [0, meta_len-1]. When both logs hold `k` records for the
reviewer and `k < meta_len`, it returns `k`. -/
theorem C2_locator_is_clamped_count (meta_len k : Nat)
    (hb ab : Option (List LogLine)) (who : String)
    (hh : count_records_for_annotator hb who = k)
    (ha : count_records_for_annotator ab who = k)
    (hk : k < meta_len) :
    first_undecided_index_from_counts meta_len hb ab who = k := by
  unfold first_undecided_index_from_counts
  rw [hh, ha, if_neg (by omega)]
  simp only [min_self, Nat.max_zero]
  exact Nat.min_eq_left (by omega)

/-- Witness for the amended C2 theorem at the concrete scenario. -/
theorem C2_witness :
    first_undecided_index_from_counts 5 (some c2_hlog) (some c2_alog) "rev" = 3 :=
  C2_locator_is_clamped_count 5 3 (some c2_hlog) (some c2_alog) "rev"
    (by decide) (by decide) (by decide)

/-! ### Claim C10 — index clamping invariant -/

/-- Claim C10: `clamp_idx` always lands in [0, n-1] for n > 0 and
returns 0 for n ≤ 0; the jump target `prompt_to_first_row_idx` and the
auto-resume index `first_undecided_index_from_counts` satisfy the same
bound, so every index-changing operation (auto-resume, jump, Prev, Next
and the post-save advance — all of which route through these functions)
leaves the session index in range. -/
theorem C10_index_in_range (idx n : Int) (cfg : Option Int) (pn total : Int)
    (mlen : Nat) (hb ab : Option (List LogLine)) (who : String) :
    (0 < n → 0 ≤ clamp_idx idx n ∧ clamp_idx idx n ≤ n - 1) ∧
    (n ≤ 0 → clamp_idx idx n = 0) ∧
    (0 < total → 0 ≤ prompt_to_first_row_idx cfg pn total ∧
      prompt_to_first_row_idx cfg pn total ≤ total - 1) ∧
    (total ≤ 0 → prompt_to_first_row_idx cfg pn total = 0) ∧
    (0 < mlen → first_undecided_index_from_counts mlen hb ab who ≤ mlen - 1) := by
  unfold clamp_idx prompt_to_first_row_idx first_undecided_index_from_counts
  refine ⟨fun h => ?_, fun h => ?_, fun h => ?_, fun h => ?_, fun h => ?_⟩
  · rw [if_neg (by omega)]
    constructor
    · exact le_min (le_max_right idx 0) (by omega)
    · exact min_le_right _ _
  · rw [if_pos h]
  · rw [if_neg (by omega)]
    constructor
    · exact le_min (le_max_right _ 0) (by omega)
    · exact min_le_right _ _
  · rw [if_pos h]
  · rw [if_neg (by omega)]
    exact Nat.le_trans (min_le_right _ _) (le_refl _)

/-! ### Claim C3 — idempotent save -/

/-- Claim C3: a first successful save appends exactly one record to each
log (one pair of appends); a duplicate trigger of the same save — same
render closure, same in-memory decision, no state change in between —
appends nothing to either log and reports the successful
"Already saved this exact decision." no-op result. -/
theorem C3_idempotent_save (env1 env2 : Env) (w : World) (sh sa : String)
    (hl : w.session.save_lock = false) (hs : w.session.saving = false)
    (hd : lookupDec w.session.dec (render env1 w).pk = some (some sh, some sa))
    (hsh : sh = "accepted" ∨ sh = "rejected") (hsa : sa = "accepted" ∨ sa = "rejected")
    (ht : ¬ w.session.last_save_token =
      some ⟨(render env1 w).pk, sh, sa, canonical_user w.session.user⟩)
    (hah : env1.append_h_ok = true) (haa : env1.append_a_ok = true) :
    ((save_now env1 (render env1 w) w).2.filter Ev.isAppend
        = [.appendLog .hypo, .appendLog .adv]) ∧
    ((save_now env2 (render env1 w) (save_now env1 (render env1 w) w).1).2.filter
        Ev.isAppend = []) ∧
    (save_now env2 (render env1 w) (save_now env1 (render env1 w) w).1).1.log_hypo
        = (save_now env1 (render env1 w) w).1.log_hypo ∧
    (save_now env2 (render env1 w) (save_now env1 (render env1 w) w).1).1.log_adv
        = (save_now env1 (render env1 w) w).1.log_adv ∧
    (save_now env2 (render env1 w) (save_now env1 (render env1 w) w).1).1.session.flash
        = some ⟨"Already saved this exact decision.", true⟩ := by
  have h1 := save_now_success_eq env1 (render env1 w) w sh sa hl hs hd hsh hsa ht hah haa
  have e1 : (save_now env1 (render env1 w) w).1.session.save_lock = false := by
    rw [h1]; exact hl
  have e2 : (save_now env1 (render env1 w) w).1.session.saving = false := by
    rw [h1]; exact hs
  have e3 : (save_now env1 (render env1 w) w).1.session.dec = w.session.dec := by
    rw [h1]
  have e4 : (save_now env1 (render env1 w) w).1.session.user = w.session.user := by
    rw [h1]
  have e5 : (save_now env1 (render env1 w) w).1.session.last_save_token =
      some ⟨(render env1 w).pk, sh, sa, canonical_user w.session.user⟩ := by
    rw [h1]
  have h2 := save_now_duplicate_eq env2 (render env1 w)
    (save_now env1 (render env1 w) w).1 sh sa e1 e2
    (by rw [e3]; exact hd) hsh hsa (by rw [e5, e4])
  refine ⟨?_, ?_, ?_, ?_, ?_⟩
  · rw [h1]
    simp [List.filter_append, side_maintenance_filter_append, List.filter, Ev.isAppend]
  · rw [h2]
    simp [List.filter_append, side_maintenance_filter_append]
  · rw [h2]
  · rw [h2]
  · rw [h2]

/-- Witness for C3 at the concrete all-success scenario. -/
theorem C3_witness :
    ((save_now demoEnv (render demoEnv demoWorld) demoWorld).2.filter Ev.isAppend
        = [.appendLog .hypo, .appendLog .adv]) ∧
    ((save_now demoEnv (render demoEnv demoWorld)
        (save_now demoEnv (render demoEnv demoWorld) demoWorld).1).2.filter
        Ev.isAppend = []) ∧
    (save_now demoEnv (render demoEnv demoWorld)
        (save_now demoEnv (render demoEnv demoWorld) demoWorld).1).1.log_hypo
      = (save_now demoEnv (render demoEnv demoWorld) demoWorld).1.log_hypo ∧
    (save_now demoEnv (render demoEnv demoWorld)
        (save_now demoEnv (render demoEnv demoWorld) demoWorld).1).1.log_adv
      = (save_now demoEnv (render demoEnv demoWorld) demoWorld).1.log_adv ∧
    (save_now demoEnv (render demoEnv demoWorld)
        (save_now demoEnv (render demoEnv demoWorld) demoWorld).1).1.session.flash
      = some ⟨"Already saved this exact decision.", true⟩ :=
  C3_idempotent_save demoEnv demoEnv demoWorld "accepted" "rejected"
    (by decide) (by decide) (by decide) (Or.inl rfl) (Or.inr rfl)
    (by decide) (by decide) (by decide)

/-! ### Claim C4 — step order of the save transaction -/

/-- Claim C4 counterexample: a duplicate save (token equal to the last
successful save's) still performs artifact deletion and creation before
short-circuiting — here it deletes artifact "X" and creates a fresh
shortcut — refuting that the idempotency token is computed and compared
before export-artifact maintenance. -/
theorem C4_counterexample :
    (pageSave demoEnv c4_world).1.session.flash
        = some ⟨"Already saved this exact decision.", true⟩ ∧
    (pageSave demoEnv c4_world).2 = [.del .hypo "X", .create .hypo "h1"] ∧
    ((pageSave demoEnv c4_world).2.filter Ev.isArtifactOp ≠ []) ∧
    (pageSave demoEnv c4_world).1.dst_hypo = [("h1", "F")] := by
  decide

/-- Claim C4 (amended): the idempotency token is computed and compared
only after the export-artifact maintenance of step 2 has run; a
duplicate save therefore still performs the step-2 artifact deletions
and creations, and only then short-circuits — it appends nothing to the
logs, changes neither token nor index, and reports the no-op result. -/
theorem C4_token_checked_after_step2 (env : Env) (ctx : RenderCtx) (w : World)
    (sh sa : String)
    (hl : w.session.save_lock = false) (hs : w.session.saving = false)
    (hd : lookupDec w.session.dec ctx.pk = some (some sh, some sa))
    (hsh : sh = "accepted" ∨ sh = "rejected") (hsa : sa = "accepted" ∨ sa = "rejected")
    (ht : w.session.last_save_token =
      some ⟨ctx.pk, sh, sa, canonical_user w.session.user⟩) :
    (save_now env ctx w).1.log_hypo = w.log_hypo ∧
    (save_now env ctx w).1.log_adv = w.log_adv ∧
    (save_now env ctx w).1.session.last_save_token = w.session.last_save_token ∧
    (save_now env ctx w).1.session.idx = w.session.idx ∧
    (save_now env ctx w).1.session.flash
        = some ⟨"Already saved this exact decision.", true⟩ ∧
    (save_now env ctx w).2.filter Ev.isAppend = [] ∧
    (∀ e ∈ (save_now env ctx w).2, e.isStep2 = true) ∧
    (save_now env ctx w).1.dst_hypo =
      (side_maintenance .hypo env.henv ctx.saved_h sh
        ctx.saved_h_copied ctx.hypo_name w.dst_hypo).1 ∧
    (save_now env ctx w).1.dst_adv =
      (side_maintenance .adv env.aenv ctx.saved_a sa
        ctx.saved_a_copied ctx.adv_name w.dst_adv).1 := by
  have h2 := save_now_duplicate_eq env ctx w sh sa hl hs hd hsh hsa ht
  rw [h2]
  refine ⟨rfl, rfl, rfl, rfl, rfl, ?_, ?_, rfl, rfl⟩
  · simp [List.filter_append, side_maintenance_filter_append]
  · intro e he
    simp only [List.mem_append] at he
    rcases he with he | he
    · exact side_maintenance_step2_only _ _ _ _ _ _ _ e he
    · exact side_maintenance_step2_only _ _ _ _ _ _ _ e he

/-- Witness for the amended C4 theorem at the concrete duplicate
scenario. -/
theorem C4_witness :
    (save_now demoEnv (render demoEnv c4_world) c4_world).1.log_hypo
        = c4_world.log_hypo ∧
    (save_now demoEnv (render demoEnv c4_world) c4_world).1.session.flash
        = some ⟨"Already saved this exact decision.", true⟩ ∧
    (save_now demoEnv (render demoEnv c4_world) c4_world).2.filter Ev.isAppend = [] := by
  have h := C4_token_checked_after_step2 demoEnv (render demoEnv c4_world) c4_world
    "accepted" "rejected" (by decide) (by decide) (by decide)
    (Or.inl rfl) (Or.inr rfl) (by decide)
  exact ⟨h.1, h.2.2.2.2.1, h.2.2.2.2.2.1⟩

/-! ### Claim C5 — flip-safety of export artifacts -/

lemma pipe_pk_ne_empty (a b : String) : a ++ "|" ++ b ≠ "" := by
  intro h
  have h2 := congrArg String.length h
  have hp : ("|" : String).length = 1 := rfl
  have he : ("" : String).length = 0 := rfl
  rw [String.length_append, String.length_append, hp, he] at h2
  omega

lemma strip_accepted : strip_or_none (some "accepted") = some "accepted" := by decide

lemma strip_rejected : strip_or_none (some "rejected") = some "rejected" := by decide

/-- Flip out of accepted: the prior artifact is deleted by its stored id
and no new one is created. -/
lemma c5_mh1 (F S hn X : String) (hX : X ≠ "") :
    side_maintenance .hypo ⟨true, true, true, F, some S⟩ (some "accepted") "rejected"
      (some X) hn [(hn, X)] = ([], none, [.del .hypo X]) := by
  unfold side_maintenance delete_file_by_id find_file_id_in_folder create_shortcut_to_file
  simp [pyTruthy, hX]

/-- A side whose saved and new statuses are both rejected is untouched. -/
lemma c5_ma (F hn : String) (pc : Option String) (fold : Folder) :
    side_maintenance .adv ⟨true, true, true, F, none⟩ (some "rejected") "rejected"
      pc hn fold = (fold, pc, []) := by
  unfold side_maintenance
  simp

/-- Flip back into accepted on an empty folder: the stale-artifact
lookup finds nothing and exactly one fresh shortcut is created. -/
lemma c5_mh2 (F S hn : String) (hS : S ≠ "") (hhn : hn ≠ "") :
    side_maintenance .hypo ⟨true, true, true, F, some S⟩ (some "rejected") "accepted"
      none hn [] = ([(hn, F)], some F, [.findDst .hypo, .create .hypo hn]) := by
  unfold side_maintenance delete_file_by_id find_file_id_in_folder create_shortcut_to_file
  simp [pyTruthy, hS, hhn]

/-- After the first save the reconciled hypothesis record for the pair
is the freshly appended rejected record. -/
lemma c5_append_h (u hn an : String) (lh0 : List LogLine) (ts1 : Int)
    (hu : canonical_user u ≠ "") :
    lookupAssoc
      (load_latest_map_for_annotator (lh0 ++ [LogLine.ok (c5_rec1h u hn an ts1)]) u)
      (hn ++ "|" ++ an) = some (c5_rec1h u hn an ts1) := by
  have hu0 : u ≠ "" := by intro h; subst h; exact hu rfl
  have hpk : hn ++ "|" ++ an ≠ "" := pipe_pk_ne_empty hn an
  have hann : rowAnnRaw (c5_rec1h u hn an ts1) = canonical_user u := by
    simp [rowAnnRaw, c5_rec1h, strOr, hu0]
  have hrowpk : rowPk (c5_rec1h u hn an ts1) = hn ++ "|" ++ an := by
    simp [rowPk, c5_rec1h, strOr, hpk]
  have h := load_latest_map_append_last lh0 (c5_rec1h u hn an ts1) u hann hu
  rw [hrowpk] at h
  simpa [c5_rec1h] using h

/-- After the first save the reconciled adversarial record for the pair
is the freshly appended rejected record. -/
lemma c5_append_a (u hn an : String) (la0 : List LogLine) (ts1 : Int)
    (ca1 : Option String) (hu : canonical_user u ≠ "") :
    lookupAssoc
      (load_latest_map_for_annotator (la0 ++ [LogLine.ok (c5_rec1a u hn an ts1 ca1)]) u)
      (hn ++ "|" ++ an) = some (c5_rec1a u hn an ts1 ca1) := by
  have hu0 : u ≠ "" := by intro h; subst h; exact hu rfl
  have hpk : hn ++ "|" ++ an ≠ "" := pipe_pk_ne_empty hn an
  have hann : rowAnnRaw (c5_rec1a u hn an ts1 ca1) = canonical_user u := by
    simp [rowAnnRaw, c5_rec1a, strOr, hu0]
  have hrowpk : rowPk (c5_rec1a u hn an ts1 ca1) = hn ++ "|" ++ an := by
    simp [rowPk, c5_rec1a, strOr, hpk]
  have h := load_latest_map_append_last la0 (c5_rec1a u hn an ts1 ca1) u hann hu
  rw [hrowpk] at h
  simpa [c5_rec1a] using h

lemma c5_rec1h_status (u hn an : String) (ts : Int) :
    (c5_rec1h u hn an ts).status = some "rejected" := rfl

lemma c5_rec1h_copied (u hn an : String) (ts : Int) :
    (c5_rec1h u hn an ts).copied_id = none := rfl

lemma c5_rec1a_status (u hn an : String) (ts : Int) (ca1 : Option String) :
    (c5_rec1a u hn an ts ca1).status = some "rejected" := rfl

lemma c5_rec1a_copied (u hn an : String) (ts : Int) (ca1 : Option String) :
    (c5_rec1a u hn an ts ca1).copied_id = ca1 := rfl

/-- The first save of the flip sequence: flipping the hypothesis side
out of accepted deletes the existing artifact `X` and appends rejected
records. -/
lemma c5_step1 (u hn an X F S : String) (lh0 la0 : List LogLine) (da0 : Folder)
    (tok0 : Option Token) (r0h r0a : Row) (ts1 : Int)
    (hhn : hn ≠ "") (hX : X ≠ "")
    (hr0h : lookupAssoc (load_latest_map_for_annotator lh0 u) (hn ++ "|" ++ an)
      = some r0h)
    (hr0hs : r0h.status = some "accepted") (hr0hc : r0h.copied_id = some X)
    (hr0a : lookupAssoc (load_latest_map_for_annotator la0 u) (hn ++ "|" ++ an)
      = some r0a)
    (hr0as : r0a.status = some "rejected")
    (htok : tok0 ≠ some ⟨hn ++ "|" ++ an, "rejected", "rejected", canonical_user u⟩) :
    pageSave (c5_env F S ts1) (c5_world u hn an X lh0 la0 da0 tok0) =
      (c5_world1 u hn an lh0 la0 da0
        (if pyTruthy r0a.copied_id then r0a.copied_id else none) ts1,
       [.del .hypo X, .appendLog .hypo, .appendLog .adv, .clearCaches, .persistPtr 0]) := by
  have hctx1 : render (c5_env F S ts1) (c5_world u hn an X lh0 la0 da0 tok0) =
      { i := 0, hypo_name := hn, adv_name := an, pk := hn ++ "|" ++ an,
        saved_h := some "accepted", saved_a := some "rejected",
        saved_h_copied := some X, saved_a_copied := r0a.copied_id,
        src_h_id := some S, src_a_id := none } := by
    unfold render c5_world c5_env
    simp [hr0h, hr0a, hr0hs, hr0as, hr0hc, hhn, strip_accepted, strip_rejected]
  have hd1 : lookupDec (c5_world u hn an X lh0 la0 da0 tok0).session.dec
      (render (c5_env F S ts1) (c5_world u hn an X lh0 la0 da0 tok0)).pk
      = some (some "rejected", some "rejected") := by
    rw [hctx1]; simp [c5_world, lookupDec]
  have ht1 : ¬ (c5_world u hn an X lh0 la0 da0 tok0).session.last_save_token =
      some ⟨(render (c5_env F S ts1) (c5_world u hn an X lh0 la0 da0 tok0)).pk,
        "rejected", "rejected",
        canonical_user (c5_world u hn an X lh0 la0 da0 tok0).session.user⟩ := by
    rw [hctx1]; simpa [c5_world] using htok
  have h1 := save_now_success_eq (c5_env F S ts1)
    (render (c5_env F S ts1) (c5_world u hn an X lh0 la0 da0 tok0))
    (c5_world u hn an X lh0 la0 da0 tok0) "rejected" "rejected"
    (by simp [c5_world]) (by simp [c5_world]) hd1 (Or.inr rfl) (Or.inr rfl)
    ht1 (by simp [c5_env]) (by simp [c5_env])
  rw [hctx1] at h1
  unfold pageSave
  rw [hctx1, h1]
  rw [show (c5_env F S ts1).henv = ⟨true, true, true, F, some S⟩ from rfl,
      show (c5_env F S ts1).aenv = ⟨true, true, true, F, none⟩ from rfl]
  dsimp only
  rw [show (c5_world u hn an X lh0 la0 da0 tok0).dst_hypo = [(hn, X)] from rfl,
      show (c5_world u hn an X lh0 la0 da0 tok0).dst_adv = da0 from rfl]
  rw [c5_mh1 F S hn X hX, c5_ma F an r0a.copied_id da0]
  simp [c5_world, c5_world1, c5_env, c5_rec1h, c5_rec1a, pyTruthy, clamp_idx]

/-- The reviewer flipping the hypothesis side back to accepted. -/
lemma c5_setDec_eq (u hn an : String) (lh0 la0 : List LogLine) (da0 : Folder)
    (ca1 : Option String) (ts1 : Int) :
    setDec (c5_world1 u hn an lh0 la0 da0 ca1 ts1) (hn ++ "|" ++ an)
      (some "accepted") (some "rejected") = c5_world2 u hn an lh0 la0 da0 ca1 ts1 := by
  simp [setDec, setDecAssoc, c5_world1, c5_world2]

/-- The second save of the flip sequence: flipping back into accepted
finds no stale artifact, creates exactly one fresh shortcut and appends
the accepted record carrying its id. -/
lemma c5_step2 (u hn an F S : String) (lh0 la0 : List LogLine) (da0 : Folder)
    (ca1 : Option String) (ts1 ts2 : Int)
    (hu : canonical_user u ≠ "") (hhn : hn ≠ "") (hF : F ≠ "") (hS : S ≠ "") :
    pageSave (c5_env F S ts2) (c5_world2 u hn an lh0 la0 da0 ca1 ts1) =
      (c5_world3 u hn an F lh0 la0 da0 ca1 ts1 ts2,
       [.findDst .hypo, .create .hypo hn, .appendLog .hypo, .appendLog .adv,
        .clearCaches, .persistPtr 0]) := by
  have happh := c5_append_h u hn an lh0 ts1 hu
  have happa := c5_append_a u hn an la0 ts1 ca1 hu
  have hctx2 : render (c5_env F S ts2) (c5_world2 u hn an lh0 la0 da0 ca1 ts1) =
      { i := 0, hypo_name := hn, adv_name := an, pk := hn ++ "|" ++ an,
        saved_h := some "rejected", saved_a := some "rejected",
        saved_h_copied := none, saved_a_copied := ca1,
        src_h_id := some S, src_a_id := none } := by
    unfold render c5_world2 c5_env
    simp [happh, happa, hhn, strip_rejected, c5_rec1h_status, c5_rec1h_copied,
      c5_rec1a_status, c5_rec1a_copied]
  have hd2 : lookupDec (c5_world2 u hn an lh0 la0 da0 ca1 ts1).session.dec
      (render (c5_env F S ts2) (c5_world2 u hn an lh0 la0 da0 ca1 ts1)).pk
      = some (some "accepted", some "rejected") := by
    rw [hctx2]; simp [c5_world2, lookupDec]
  have ht2 : ¬ (c5_world2 u hn an lh0 la0 da0 ca1 ts1).session.last_save_token =
      some ⟨(render (c5_env F S ts2) (c5_world2 u hn an lh0 la0 da0 ca1 ts1)).pk,
        "accepted", "rejected",
        canonical_user (c5_world2 u hn an lh0 la0 da0 ca1 ts1).session.user⟩ := by
    rw [hctx2]
    simp [c5_world2, Token.mk.injEq]
  have h2 := save_now_success_eq (c5_env F S ts2)
    (render (c5_env F S ts2) (c5_world2 u hn an lh0 la0 da0 ca1 ts1))
    (c5_world2 u hn an lh0 la0 da0 ca1 ts1) "accepted" "rejected"
    (by simp [c5_world2]) (by simp [c5_world2]) hd2 (Or.inl rfl) (Or.inr rfl)
    ht2 (by simp [c5_env]) (by simp [c5_env])
  rw [hctx2] at h2
  unfold pageSave
  rw [hctx2, h2]
  rw [show (c5_env F S ts2).henv = ⟨true, true, true, F, some S⟩ from rfl,
      show (c5_env F S ts2).aenv = ⟨true, true, true, F, none⟩ from rfl]
  dsimp only
  rw [show (c5_world2 u hn an lh0 la0 da0 ca1 ts1).dst_hypo = [] from rfl,
      show (c5_world2 u hn an lh0 la0 da0 ca1 ts1).dst_adv = da0 from rfl]
  rw [c5_mh2 F S hn hS hhn, c5_ma F an ca1 da0]
  simp [c5_world2, c5_world3, c5_env, c5_rec2h, c5_rec2a, pyTruthy, hF, clamp_idx]

/-- Claim C5: for every accepted→rejected→accepted flip sequence on the
same pair's hypothesis side (starting from a persisted accepted state
with exactly one artifact `(hn, X)`), the flip out of accepted deletes
the prior artifact (folder empties) and logs a record with a null
artifact id; the flip back into accepted first looks up any stale
artifact and then creates exactly one fresh one, leaving exactly one
artifact `(hn, F)` in the destination folder — never zero-with-orphan
and never duplicated — and logs the accepted record carrying the fresh
id. -/
theorem C5_flip_safety (u hn an X F S : String) (lh0 la0 : List LogLine)
    (da0 : Folder) (tok0 : Option Token) (r0h r0a : Row) (ts1 ts2 : Int)
    (hu : canonical_user u ≠ "") (hhn : hn ≠ "") (hX : X ≠ "")
    (hF : F ≠ "") (hS : S ≠ "")
    (hr0h : lookupAssoc (load_latest_map_for_annotator lh0 u) (hn ++ "|" ++ an)
      = some r0h)
    (hr0hs : r0h.status = some "accepted") (hr0hc : r0h.copied_id = some X)
    (hr0a : lookupAssoc (load_latest_map_for_annotator la0 u) (hn ++ "|" ++ an)
      = some r0a)
    (hr0as : r0a.status = some "rejected")
    (htok : tok0 ≠ some ⟨hn ++ "|" ++ an, "rejected", "rejected", canonical_user u⟩) :
    (pageSave (c5_env F S ts1) (c5_world u hn an X lh0 la0 da0 tok0)).1.dst_hypo = [] ∧
    (pageSave (c5_env F S ts1) (c5_world u hn an X lh0 la0 da0 tok0)).1.log_hypo
      = lh0 ++ [LogLine.ok (c5_rec1h u hn an ts1)] ∧
    (c5_rec1h u hn an ts1).status = some "rejected" ∧
    (c5_rec1h u hn an ts1).copied_id = none ∧
    (pageSave (c5_env F S ts2)
      (setDec (pageSave (c5_env F S ts1) (c5_world u hn an X lh0 la0 da0 tok0)).1
        (hn ++ "|" ++ an) (some "accepted") (some "rejected"))).1.dst_hypo
      = [(hn, F)] ∧
    (pageSave (c5_env F S ts2)
      (setDec (pageSave (c5_env F S ts1) (c5_world u hn an X lh0 la0 da0 tok0)).1
        (hn ++ "|" ++ an) (some "accepted") (some "rejected"))).1.log_hypo
      = (pageSave (c5_env F S ts1) (c5_world u hn an X lh0 la0 da0 tok0)).1.log_hypo
        ++ [LogLine.ok (c5_rec2h u hn an F ts2)] ∧
    (c5_rec2h u hn an F ts2).status = some "accepted" ∧
    (c5_rec2h u hn an F ts2).copied_id = some F ∧
    (pageSave (c5_env F S ts2)
      (setDec (pageSave (c5_env F S ts1) (c5_world u hn an X lh0 la0 da0 tok0)).1
        (hn ++ "|" ++ an) (some "accepted") (some "rejected"))).1.session.flash
      = some ⟨"Saved.", true⟩ := by
  have h1 := c5_step1 u hn an X F S lh0 la0 da0 tok0 r0h r0a ts1 hhn hX
    hr0h hr0hs hr0hc hr0a hr0as htok
  rw [h1]
  dsimp only
  rw [c5_setDec_eq, c5_step2 u hn an F S lh0 la0 da0 _ ts1 ts2 hu hhn hF hS]
  exact ⟨rfl, rfl, rfl, rfl, rfl, rfl, rfl, rfl, rfl⟩

/-- Witness for C5 at a concrete flip sequence. -/
theorem C5_witness :
    (pageSave (c5_env "F" "S" 100)
      (c5_world "Rev" "h1" "a1" "X" [.ok c4_priorH] [.ok c4_priorA] [] none)).1.dst_hypo
      = [] ∧
    (pageSave (c5_env "F" "S" 100)
      (c5_world "Rev" "h1" "a1" "X" [.ok c4_priorH] [.ok c4_priorA] [] none)).1.log_hypo
      = [.ok c4_priorH] ++ [LogLine.ok (c5_rec1h "Rev" "h1" "a1" 100)] ∧
    (c5_rec1h "Rev" "h1" "a1" 100).status = some "rejected" ∧
    (c5_rec1h "Rev" "h1" "a1" 100).copied_id = none ∧
    (pageSave (c5_env "F" "S" 200)
      (setDec (pageSave (c5_env "F" "S" 100)
        (c5_world "Rev" "h1" "a1" "X" [.ok c4_priorH] [.ok c4_priorA] [] none)).1
        ("h1" ++ "|" ++ "a1") (some "accepted") (some "rejected"))).1.dst_hypo
      = [("h1", "F")] ∧
    (pageSave (c5_env "F" "S" 200)
      (setDec (pageSave (c5_env "F" "S" 100)
        (c5_world "Rev" "h1" "a1" "X" [.ok c4_priorH] [.ok c4_priorA] [] none)).1
        ("h1" ++ "|" ++ "a1") (some "accepted") (some "rejected"))).1.log_hypo
      = (pageSave (c5_env "F" "S" 100)
        (c5_world "Rev" "h1" "a1" "X" [.ok c4_priorH] [.ok c4_priorA] [] none)).1.log_hypo
        ++ [LogLine.ok (c5_rec2h "Rev" "h1" "a1" "F" 200)] ∧
    (c5_rec2h "Rev" "h1" "a1" "F" 200).status = some "accepted" ∧
    (c5_rec2h "Rev" "h1" "a1" "F" 200).copied_id = some "F" ∧
    (pageSave (c5_env "F" "S" 200)
      (setDec (pageSave (c5_env "F" "S" 100)
        (c5_world "Rev" "h1" "a1" "X" [.ok c4_priorH] [.ok c4_priorA] [] none)).1
        ("h1" ++ "|" ++ "a1") (some "accepted") (some "rejected"))).1.session.flash
      = some ⟨"Saved.", true⟩ :=
  C5_flip_safety "Rev" "h1" "a1" "X" "F" "S" [.ok c4_priorH] [.ok c4_priorA] []
    none c4_priorH c4_priorA 100 200
    (by decide) (by decide) (by decide) (by decide) (by decide)
    (by decide) (by decide) (by decide) (by decide) (by decide) (by decide)

/-! ### Claim C6 — exceptions during artifact maintenance -/

/-- A failing shortcut creation is swallowed by
`create_shortcut_to_file` and leaves a `None` copied id. -/
lemma side_maintenance_copied_none_of_create_fail (sd : Side) (se : SideEnv)
    (saved pc : Option String) (name : String) (folder : Folder)
    (hsrc : pyTruthy se.src_id = true) (hcr : se.create_ok = false) :
    (side_maintenance sd se saved "accepted" pc name folder).2.1 = none := by
  unfold side_maintenance
  dsimp only
  rw [if_pos rfl]
  simp [create_shortcut_to_file, hsrc, hcr]

/-- Claim C6 counterexample: the hypothesis-side shortcut creation fails
(`create_ok = false`; the helper swallows the exception and returns
`None`), yet the transaction does not abort: both decision records are
appended — the hypothesis one with a null artifact id while its
destination folder holds no artifact — and the save reports success.
A decision record is therefore appended although its artifact
side-effect failed. -/
theorem C6_counterexample :
    c6_env.henv.create_ok = false ∧
    (pageSave c6_env demoWorld).2
      = [.findDst .hypo, .create .hypo "h1", .appendLog .hypo, .appendLog .adv,
         .clearCaches, .persistPtr 0] ∧
    (pageSave c6_env demoWorld).1.dst_hypo = [] ∧
    ((pageSave c6_env demoWorld).1.log_hypo.map (fun ln => match ln with
        | .ok r => (r.status, r.copied_id) | .bad => (none, none)))
      = [(some "accepted", none)] ∧
    (pageSave c6_env demoWorld).1.session.flash = some ⟨"Saved.", true⟩ := by
  decide

/-- Claim C6 (amended): the artifact helpers (`delete_file_by_id`,
`create_shortcut_to_file`, `find_file_id_in_folder`) swallow every
exception internally, so step 2 never raises and the `except` handler
that would abort before the appends is unreachable. A failed artifact
creation does not abort the transaction: both records are appended —
the affected one carrying a null artifact id — and the save reports
success. -/
theorem C6_failed_artifact_creation_does_not_abort (env : Env) (ctx : RenderCtx)
    (w : World) (sa : String)
    (hl : w.session.save_lock = false) (hs : w.session.saving = false)
    (hd : lookupDec w.session.dec ctx.pk = some (some "accepted", some sa))
    (hsa : sa = "accepted" ∨ sa = "rejected")
    (ht : ¬ w.session.last_save_token =
      some ⟨ctx.pk, "accepted", sa, canonical_user w.session.user⟩)
    (hah : env.append_h_ok = true) (haa : env.append_a_ok = true)
    (hsrc : pyTruthy env.henv.src_id = true) (hcr : env.henv.create_ok = false) :
    ((save_now env ctx w).2.filter Ev.isAppend
        = [.appendLog .hypo, .appendLog .adv]) ∧
    (save_now env ctx w).1.log_hypo = w.log_hypo ++ [LogLine.ok
      { pair_key := some ctx.pk, hypo_id := some ctx.hypo_name,
        adversarial_id := some ctx.adv_name, annotator := some w.session.user,
        annotator_canon := some (canonical_user w.session.user),
        side := some "hypothesis", status := some "accepted", decided_at := env.ts,
        copied_id := none }] ∧
    (save_now env ctx w).1.session.flash = some ⟨"Saved.", true⟩ := by
  have h1 := save_now_success_eq env ctx w "accepted" sa hl hs hd (Or.inl rfl)
    hsa ht hah haa
  have hn := side_maintenance_copied_none_of_create_fail .hypo env.henv ctx.saved_h
    ctx.saved_h_copied ctx.hypo_name w.dst_hypo hsrc hcr
  refine ⟨?_, ?_, ?_⟩
  · rw [h1]
    simp [List.filter_append, side_maintenance_filter_append, List.filter, Ev.isAppend]
  · rw [h1]
    simp [hn, pyTruthy]
  · rw [h1]

/-- Witness for the amended C6 theorem at the concrete failing-create
scenario. -/
theorem C6_witness :
    ((save_now c6_env (render c6_env demoWorld) demoWorld).2.filter Ev.isAppend
        = [.appendLog .hypo, .appendLog .adv]) ∧
    (save_now c6_env (render c6_env demoWorld) demoWorld).1.log_hypo
      = demoWorld.log_hypo ++ [LogLine.ok
      { pair_key := some (render c6_env demoWorld).pk,
        hypo_id := some (render c6_env demoWorld).hypo_name,
        adversarial_id := some (render c6_env demoWorld).adv_name,
        annotator := some demoWorld.session.user,
        annotator_canon := some (canonical_user demoWorld.session.user),
        side := some "hypothesis", status := some "accepted",
        decided_at := c6_env.ts, copied_id := none }] ∧
    (save_now c6_env (render c6_env demoWorld) demoWorld).1.session.flash
      = some ⟨"Saved.", true⟩ :=
  C6_failed_artifact_creation_does_not_abort c6_env (render c6_env demoWorld)
    demoWorld "rejected" (by decide) (by decide) (by decide) (Or.inr rfl)
    (by decide) (by decide) (by decide) (by decide) (by decide)

/-! ### Claim C9 — precondition guard -/

/-- Claim C9: when either side of the working decision is not a concrete
status in {accepted, rejected}, the save is rejected before any I/O: the
event trace is empty (no artifact mutation, no log append, no cache
invalidation, no pointer update), the durable state is untouched, and
the structured failure result (ok = false with a message) is set. -/
theorem C9_undecided_blocks_before_io (env : Env) (ctx : RenderCtx) (w : World)
    (hl : w.session.save_lock = false) (hs : w.session.saving = false)
    (hnd : ¬ (is_concrete ((lookupDec w.session.dec ctx.pk).getD (none, none)).1 = true ∧
              is_concrete ((lookupDec w.session.dec ctx.pk).getD (none, none)).2 = true)) :
    (save_now env ctx w).2 = [] ∧
    save_now env ctx w =
      ({ w with session := { w.session with
          flash := some ⟨"Decide both sides before saving.", false⟩ } }, []) := by
  have hb : (is_concrete ((lookupDec w.session.dec ctx.pk).getD (none, none)).1 &&
      is_concrete ((lookupDec w.session.dec ctx.pk).getD (none, none)).2) = false := by
    cases hc1 : is_concrete ((lookupDec w.session.dec ctx.pk).getD (none, none)).1 <;>
      cases hc2 : is_concrete ((lookupDec w.session.dec ctx.pk).getD (none, none)).2 <;>
      simp_all
  have h := save_now_precondition_eq env ctx w hl hs hb
  exact ⟨by rw [h], h⟩

/-- Witness for C9 at a concrete scenario with an unset hypothesis side. -/
theorem C9_witness :
    (save_now demoEnv (render demoEnv c9_world) c9_world).2 = [] ∧
    save_now demoEnv (render demoEnv c9_world) c9_world =
      ({ c9_world with session := { c9_world.session with
          flash := some ⟨"Decide both sides before saving.", false⟩ } }, []) :=
  C9_undecided_blocks_before_io demoEnv (render demoEnv c9_world) c9_world
    (by decide) (by decide) (by decide)

/-! ### Claim C7 — append fallback after exhausted retries -/

/-- If every write attempt in the budget fails, the retry loop never
succeeds (reads may succeed and refresh the cache along the way). -/
lemma append_attempts_all_writes_fail (atts : List (Bool × Bool))
    (s : DriveSt) (delta : String) (h : ∀ att ∈ atts, att.2 = false) :
    (append_attempts atts s delta).1 = false := by
  induction atts generalizing s with
  | nil => rfl
  | cons att rest ih =>
    obtain ⟨rok, wok⟩ := att
    have hw : wok = false := h (rok, wok) (List.mem_cons_self _ _)
    subst hw
    have hrest : ∀ att ∈ rest, att.2 = false :=
      fun a ha => h a (List.mem_cons_of_mem _ ha)
    simp only [append_attempts]
    cases hr : read_text_from_drive rok s with
    | error e => exact ih s hrest
    | ok pr =>
      simp only [write_text_to_drive, Bool.false_eq_true, if_false]
      exact ih pr.2 hrest

/-- Claim C7: when the append's read-modify-write budget is exhausted
(every write attempt fails), `append_lines_to_drive_text` falls back to
writing the fallback-cached text plus the buffered delta — the new lines
are not dropped — and, if even that final write fails, the exception
propagates to the caller instead of reporting success. -/
theorem C7_append_fallback (atts : List (Bool × Bool)) (finalOk : Bool)
    (s : DriveSt) (new_lines : List String)
    (h : ∀ att ∈ atts, att.2 = false) :
    (finalOk = false →
      append_lines_to_drive_text atts finalOk s new_lines = .error ()) ∧
    (finalOk = true →
      append_lines_to_drive_text atts finalOk s new_lines =
        .ok { blob := (append_attempts atts s (String.join new_lines)).2.cache.getD ""
                        ++ String.join new_lines,
              cache := some ((append_attempts atts s (String.join new_lines)).2.cache.getD ""
                        ++ String.join new_lines) }) := by
  rcases hps : append_attempts atts s (String.join new_lines) with ⟨b, s1⟩
  have hb : b = false := by
    have hh := append_attempts_all_writes_fail atts s (String.join new_lines) h
    rw [hps] at hh
    exact hh
  subst hb
  constructor
  · intro hf
    subst hf
    simp [append_lines_to_drive_text, hps, write_text_to_drive]
  · intro ht
    subst ht
    simp [append_lines_to_drive_text, hps, write_text_to_drive]

/-- Witness for C7 at a concrete failing environment. -/
theorem C7_witness :
    append_lines_to_drive_text [(true, false), (true, false), (true, false)] false
        ⟨"old\n", none⟩ ["x\n"] = Except.error () ∧
    append_lines_to_drive_text [(true, false), (true, false), (true, false)] true
        ⟨"old\n", none⟩ ["x\n"] =
      Except.ok { blob := "old\nx\n", cache := some "old\nx\n" } := by
  constructor
  · exact (C7_append_fallback [(true, false), (true, false), (true, false)] false
      ⟨"old\n", none⟩ ["x\n"] (by decide)).1 rfl
  · have h := (C7_append_fallback [(true, false), (true, false), (true, false)] true
      ⟨"old\n", none⟩ ["x\n"] (by decide)).2 rfl
    rw [h]
    rfl

/-! ### Claim C8 — retry classes -/

/-- Claim C8 counterexample: a call that fails with a NotFound error is
retried through the whole attempt budget — six remote calls are made,
not one — because `_download_bytes_with_retry` catches every exception
class; the claim that authorization/not-found errors are surfaced
without further attempts is false. -/
theorem C8_counterexample :
    download_bytes_with_retry (fun _ => .error .notFound) 6 =
      (.error DriveErr.notFound, 6) ∧
    download_bytes_with_retry (fun _ => .error .authz) 6 =
      (.error DriveErr.authz, 6) ∧
    (6 : Nat) ≠ 1 := by
  refine ⟨?_, ?_, by decide⟩ <;> rfl

/-- If every call fails, the loop makes exactly one call per budget unit
and propagates the error of the last call. -/
lemma download_go_all_fail (results : Nat → Except DriveErr String)
    (f : Nat → DriveErr) (hfail : ∀ i, results i = .error (f i)) :
    ∀ n i last, 0 < n →
      download_go results i n last = (.error (f (i + n - 1)), n) := by
  intro n
  induction n with
  | zero => intro i last h; exact absurd h (by omega)
  | succ m ih =>
    intro i last _
    simp only [download_go, hfail i]
    cases m with
    | zero => simp [download_go]
    | succ m' =>
      have h2 := ih (i + 1) (some (f i)) (Nat.succ_pos m')
      rw [h2]
      have he : i + 1 + (m' + 1) - 1 = i + (m' + 1 + 1) - 1 := by omega
      simp [he]

/-- Claim C8 (amended): the client retries every failure class
uniformly — transient, authorization and not-found alike — exhausting
the whole attempt budget and then raising the last error; it never
short-circuits on authorization or not-found errors. -/
theorem C8_retries_all_classes (results : Nat → Except DriveErr String)
    (f : Nat → DriveErr) (attempts : Nat)
    (hfail : ∀ i, results i = .error (f i)) (hpos : 0 < attempts) :
    download_bytes_with_retry results attempts =
      (.error (f (attempts - 1)), attempts) := by
  unfold download_bytes_with_retry
  have := download_go_all_fail results f hfail attempts 0 none hpos
  simpa using this

/-- Witness for the amended C8 theorem at a concrete environment. -/
theorem C8_witness :
    download_bytes_with_retry (fun _ => .error .notFound) 6 =
      (.error DriveErr.notFound, 6) :=
  C8_retries_all_classes (fun _ => .error .notFound) (fun _ => .notFound) 6
    (fun _ => rfl) (by decide)

/-- Witness for C10 at concrete inputs. -/
theorem C10_witness :
    (0 ≤ clamp_idx 7 3 ∧ clamp_idx 7 3 ≤ 2) ∧ clamp_idx 7 0 = 0 ∧
    (0 ≤ prompt_to_first_row_idx none 2 4 ∧ prompt_to_first_row_idx none 2 4 ≤ 3) ∧
    first_undecided_index_from_counts 5 (some c2_hlog) (some c2_alog) "rev" ≤ 4 := by
  have h := C10_index_in_range 7 3 none 2 4 5 (some c2_hlog) (some c2_alog) "rev"
  have h0 := C10_index_in_range 7 0 none 2 4 5 (some c2_hlog) (some c2_alog) "rev"
  exact ⟨h.1 (by decide), h0.2.1 (by decide), h.2.2.1 (by decide),
    h.2.2.2.2 (by decide)⟩

end App
